import Mathlib

/-!
Verification of the requisition chatbot (`src/api/index.py`).

The conversation engine is embedded shallowly: each Python handler becomes a
Lean function over an explicit session state, the Flask session store is an
`Option UserState` argument (none = no entry for the session key), and the
two database collaborators (supplier directory, requisition store) are an
explicit `World` record carrying the supplier table together with
availability flags for each of the three SQL round trips the handlers make
(the `ILIKE` lookup, the approved-supplier listing, the requisition INSERT).
Machine behaviour of Python that the handlers rely on is modelled explicitly:
`str.strip` / `str.lower` (ASCII fragment), dict insertion order, and the
semantics of the SQL `ILIKE` pattern match that `check_supplier_db` issues.
-/

namespace ReqBot

/-- ASCII fragment of the whitespace set stripped by Python `str.strip()`. -/
def pyWhitespace (c : Char) : Bool :=
  c == ' ' || c == '\t' || c == '\n' || c == '\r' || c == '\x0b' || c == '\x0c'

/-- Python `str.strip()` on the ASCII fragment: drop leading and trailing
whitespace characters. -/
def pyStrip (s : String) : String :=
  ⟨((s.toList.dropWhile pyWhitespace).reverse.dropWhile pyWhitespace).reverse⟩

/-- Python `str.lower()` on the ASCII fragment. -/
def pyLower (s : String) : String :=
  ⟨s.toList.map Char.toLower⟩

/-- Case-insensitive character comparison, as SQL `ILIKE` compares. -/
def charILike (a b : Char) : Bool :=
  a.toLower == b.toLower

/-- One step of SQL `LIKE`/`ILIKE` pattern matching, fuelled so that the
recursion is structural (every recursive call shrinks `pattern.length +
text.length`, so any fuel above that bound computes the true match).
`%` matches any sequence, `_` exactly one character, `\` escapes the next
pattern character; comparison is case-insensitive (`ILIKE`). -/
def ilikeF : Nat → List Char → List Char → Bool
  | 0, _, _ => false
  | _ + 1, [], t => t.isEmpty
  | fuel + 1, c :: p, t =>
      if c = '%' then
        ilikeF fuel p t ||
          (match t with
           | [] => false
           | _ :: t2 => ilikeF fuel (c :: p) t2)
      else if c = '_' then
        (match t with
         | [] => false
         | _ :: t2 => ilikeF fuel p t2)
      else if c = '\\' then
        (match p with
         | [] =>
             (match t with
              | [] => false
              | d :: t2 => charILike c d && ilikeF fuel [] t2)
         | e :: p2 =>
             (match t with
              | [] => false
              | d :: t2 => charILike e d && ilikeF fuel p2 t2))
      else
        (match t with
         | [] => false
         | d :: t2 => charILike c d && ilikeF fuel p t2)

/-- SQL `ILIKE`: does `pattern` match `text` (case-insensitively, with the
`%`, `_` and `\` metacharacters)? -/
def ilike (pattern text : List Char) : Bool :=
  ilikeF (pattern.length + text.length + 1) pattern text

/-- A `LIKE` pattern is invalid when it ends in an unescaped escape
character (PostgreSQL raises an error for it, which `check_supplier_db`
catches as a database error). -/
def validLikePattern : List Char → Bool
  | [] => true
  | c :: p =>
      if c = '\\' then
        (match p with
         | [] => false
         | _ :: p2 => validLikePattern p2)
      else validLikePattern p

/-- One row of the `supplier_details` table. -/
structure Supplier where
  name : String
  address : String
  contact_number : String
  is_blacklisted : Bool
deriving DecidableEq, Repr

/-- The collaborators the handlers talk to: the supplier table plus one
availability flag per SQL round trip (the `ILIKE` lookup in
`check_supplier_db`, the approved-supplier listing in `handle_bad_supplier`,
the INSERT in `save_form`), and the exception text a failed call surfaces. -/
structure World where
  suppliers : List Supplier
  lookup_ok : Bool
  approved_ok : Bool
  insert_ok : Bool
  error_text : String
deriving Repr

/-- One session's conversation state (`user_state[session_id]`); `form_data`
is an insertion-ordered association list, mirroring a Python dict. -/
structure UserState where
  current_field_index : Nat
  form_data : List (String × String)
  special_state : Option String
deriving DecidableEq, Repr

/-- `FORM_FIELDS` from the source. -/
def FORM_FIELDS : List String :=
  ["Requester Information", "Item/Service Details", "Business Justification",
   "Required By Date", "Supplier Preference", "Approval Section"]

/-- `SUPPLIER_CHECK_STATE` from the source. -/
def SUPPLIER_CHECK_STATE : String := "AWAITING_SUPPLIER_CHOICE"

/-- `reset_form_state`: the fresh session state. -/
def reset_form_state : UserState :=
  { current_field_index := 0, form_data := [], special_state := none }

/-- Python dict read: value of key `k` in insertion-ordered dict `d`. -/
def dictGet (d : List (String × String)) (k : String) : Option String :=
  match d.find? (fun p => p.fst == k) with
  | some p => some p.snd
  | none => none

/-- Python dict write `d[k] = v`: update the key in place when present,
append it otherwise. -/
def dictInsert (d : List (String × String)) (k v : String) :
    List (String × String) :=
  if d.any (fun p => p.fst == k) then
    d.map (fun p => if p.fst == k then (k, v) else p)
  else d ++ [(k, v)]

/-- Result of `check_supplier_db`: the status string plus payload the Python
function returns as a tuple. -/
inductive CheckResult where
  | OK (row : Supplier)
  | BLACKLISTED (name : String)
  | NOT_FOUND (name : String)
  | DB_ERROR
deriving DecidableEq, Repr

/-- `check_supplier_db(supplier_name)`: run
`SELECT ... WHERE name ILIKE supplier_name` and classify the first row.
A lost connection, or a pattern PostgreSQL rejects, is caught and reported
as `DB_ERROR`. -/
def check_supplier_db (w : World) (supplier_name : String) : CheckResult :=
  if w.lookup_ok && validLikePattern supplier_name.toList then
    match w.suppliers.find? (fun r => ilike supplier_name.toList r.name.toList) with
    | none => .NOT_FOUND supplier_name
    | some r => if r.is_blacklisted then .BLACKLISTED r.name else .OK r
  else .DB_ERROR

/-- Byte-lexicographic comparison of character lists (the `ORDER BY name`
collation of the approved-supplier listing). -/
def charListLe : List Char → List Char → Bool
  | [], _ => true
  | _ :: _, [] => false
  | a :: as, b :: bs => if a = b then charListLe as bs else decide (a < b)

/-- Insert a string into a list sorted by `charListLe`. -/
def insertSorted (x : String) : List String → List String
  | [] => [x]
  | y :: ys => if charListLe x.toList y.toList then x :: y :: ys
               else y :: insertSorted x ys

/-- Sort names ascending, as `ORDER BY name` returns them. -/
def sortByName (l : List String) : List String :=
  l.foldr insertSorted []

/-- The rows of `SELECT name FROM supplier_details WHERE is_blacklisted =
FALSE ORDER BY name`. -/
def approved_suppliers (w : World) : List String :=
  sortByName ((w.suppliers.filter (fun r => !r.is_blacklisted)).map Supplier.name)

/-- Python `sep.join(l)`. -/
def pyJoin (sep : String) : List String → String
  | [] => ""
  | [x] => x
  | x :: y :: xs => x ++ sep ++ pyJoin sep (y :: xs)

/-- Hexadecimal digit of a value below 16, as Python prints it. -/
def hexDigit (n : Nat) : Char :=
  if n < 10 then Char.ofNat ('0'.toNat + n) else Char.ofNat ('a'.toNat + (n - 10))

/-- How `json.dumps` escapes one character of a string. -/
def jsonEscapeChar (c : Char) : String :=
  if c = '\\' then "\\\\"
  else if c = '"' then "\\\""
  else if c = '\n' then "\\n"
  else if c = '\t' then "\\t"
  else if c = '\r' then "\\r"
  else if c.toNat < 32 then
    "\\u00" ++ ⟨[hexDigit (c.toNat / 16), hexDigit (c.toNat % 16)]⟩
  else ⟨[c]⟩

/-- `json.dumps` rendering of one string. -/
def jsonString (s : String) : String :=
  "\"" ++ String.join (s.toList.map jsonEscapeChar) ++ "\""

/-- `json.dumps(form_data, indent=2)`: the summary preview of the collected
fields, in insertion order. -/
def form_preview (d : List (String × String)) : String :=
  match d with
  | [] => "\x7b\x7d"
  | _ => "\x7b\n" ++
      pyJoin ",\n" (d.map (fun p => "  " ++ jsonString p.fst ++ ": " ++ jsonString p.snd)) ++
      "\n\x7d"

/-- One row of the `requisitions` table as `save_form` INSERTs it
(`form_data.get(...)` of the eight canonical keys; an absent key inserts
NULL). -/
structure Requisition where
  requester_info : Option String
  item_details : Option String
  business_justification : Option String
  required_by_date : Option String
  approver : Option String
  supplier_name : Option String
  supplier_address : Option String
  supplier_contact : Option String
deriving DecidableEq, Repr

/-- The row `save_form` builds from the collected fields. -/
def build_requisition (d : List (String × String)) : Requisition :=
  { requester_info := dictGet d "Requester Information",
    item_details := dictGet d "Item/Service Details",
    business_justification := dictGet d "Business Justification",
    required_by_date := dictGet d "Required By Date",
    approver := dictGet d "Approval Section",
    supplier_name := dictGet d "Supplier Name",
    supplier_address := dictGet d "Supplier Address",
    supplier_contact := dictGet d "Supplier Contact" }

/-- Outcome of one `/chat` request: the session state after the handler ran,
the reply text, the HTTP status (200 or 500), and the requisition row the
request INSERTed, when any. -/
structure ChatResult where
  state : UserState
  reply : String
  status : Nat
  saved : Option Requisition
deriving DecidableEq, Repr

/-- `ask_next_question`: the prompt for the field at the cursor, or the
summary plus save/edit choice once every field is collected. -/
def ask_next_question (s : UserState) : String :=
  match FORM_FIELDS.get? s.current_field_index with
  | some next_field_name =>
      if next_field_name == "Supplier Preference" then
        "Please provide your **" ++ next_field_name ++
          "**. (You can type 'skip' if you don't have one)."
      else
        "Got it. Now, please provide the **" ++ next_field_name ++ "**."
  | none =>
      "Great, all information is collected!\n\nSummary:\n```json\n" ++
        form_preview s.form_data ++
        "\n```\n\nWould you like to **save** or **edit**?"

/-- `populate_supplier_data`: write the four supplier keys from the row. -/
def populate_supplier_data (d : List (String × String)) (row : Supplier) :
    List (String × String) :=
  dictInsert
    (dictInsert
      (dictInsert
        (dictInsert d "Supplier Preference" row.name)
        "Supplier Name" row.name)
      "Supplier Address" row.address)
    "Supplier Contact" row.contact_number

/-- `handle_bad_supplier`: record the supplier-choice sub-state, then try to
list the approved suppliers; a failed listing is caught and returns a 500
(after the sub-state was already written). -/
def handle_bad_supplier (w : World) (s : UserState)
    (status : String) (supplier_name_data : String) : ChatResult :=
  let s1 := { s with special_state := some SUPPLIER_CHECK_STATE }
  let message :=
    if status == "BLACKLISTED" then
      "**Warning:** The supplier '" ++ supplier_name_data ++ "' is on our blacklist."
    else
      "The supplier '" ++ supplier_name_data ++ "' was not found."
  if w.approved_ok then
    { state := s1,
      reply := message ++ "\nPlease choose an approved supplier, or type 'skip':\n- " ++
        pyJoin "\n- " (approved_suppliers w),
      status := 200,
      saved := none }
  else
    { state := s1, reply := "Error retrieving supplier list.", status := 500,
      saved := none }

/-- `handle_supplier_preference`: the Supplier Preference field while in the
plain collecting mode. -/
def handle_supplier_preference (w : World) (s : UserState) (user_input : String) :
    ChatResult :=
  if ["skip", "none", "no preference", "blank"].contains (pyLower user_input) then
    let s1 := { s with
      form_data := dictInsert s.form_data "Supplier Preference" "N/A",
      current_field_index := s.current_field_index + 1 }
    { state := s1, reply := ask_next_question s1, status := 200, saved := none }
  else
    match check_supplier_db w user_input with
    | .OK row =>
        let s1 := { s with
          form_data := populate_supplier_data s.form_data row,
          current_field_index := s.current_field_index + 1 }
        { state := s1, reply := ask_next_question s1, status := 200, saved := none }
    | .DB_ERROR =>
        { state := s, reply := "Database Error: " ++ w.error_text, status := 500,
          saved := none }
    | .BLACKLISTED n => handle_bad_supplier w s "BLACKLISTED" n
    | .NOT_FOUND n => handle_bad_supplier w s "NOT_FOUND" n

/-- `handle_supplier_reselection`: the supplier-choice sub-state; identical
to the preference handler except that resolution also clears the
sub-state marker. -/
def handle_supplier_reselection (w : World) (s : UserState) (user_input : String) :
    ChatResult :=
  if ["skip", "none", "no preference", "blank"].contains (pyLower user_input) then
    let s1 := { s with
      form_data := dictInsert s.form_data "Supplier Preference" "N/A",
      special_state := none,
      current_field_index := s.current_field_index + 1 }
    { state := s1, reply := ask_next_question s1, status := 200, saved := none }
  else
    match check_supplier_db w user_input with
    | .OK row =>
        let s1 := { s with
          form_data := populate_supplier_data s.form_data row,
          special_state := none,
          current_field_index := s.current_field_index + 1 }
        { state := s1, reply := ask_next_question s1, status := 200, saved := none }
    | .DB_ERROR =>
        { state := s, reply := "Database Error: " ++ w.error_text, status := 500,
          saved := none }
    | .BLACKLISTED n => handle_bad_supplier w s "BLACKLISTED" n
    | .NOT_FOUND n => handle_bad_supplier w s "NOT_FOUND" n

/-- `save_form`: INSERT the requisition row, then reset the session; a
failed INSERT is caught, leaving the session untouched. -/
def save_form (w : World) (s : UserState) : ChatResult :=
  if w.insert_ok then
    { state := reset_form_state,
      reply := "Form saved! You can start a new one by sending 'start'.",
      status := 200,
      saved := some (build_requisition s.form_data) }
  else
    { state := s, reply := "A database error occurred while saving the form.",
      status := 500, saved := none }

/-- `handle_form_confirmation`: at the summary, `save` saves; anything else
starts over. -/
def handle_form_confirmation (w : World) (s : UserState) (user_input : String) :
    ChatResult :=
  if pyLower user_input == "save" then save_form w s
  else
    { state := reset_form_state,
      reply := "Okay, let's start over. Please provide the **" ++
        FORM_FIELDS.headD "" ++ "**.",
      status := 200,
      saved := none }

/-- `process_current_field`: store a plain field verbatim and advance, or
delegate the Supplier Preference field. An out-of-range cursor would raise
in Python and surface as the generic 500 of the `chat` handler, with no
mutation done. -/
def process_current_field (w : World) (s : UserState) (user_input : String) :
    ChatResult :=
  match FORM_FIELDS.get? s.current_field_index with
  | some current_field_name =>
      if current_field_name == "Supplier Preference" then
        handle_supplier_preference w s user_input
      else
        let s1 := { s with
          form_data := dictInsert s.form_data current_field_name user_input,
          current_field_index := s.current_field_index + 1 }
        { state := s1, reply := ask_next_question s1, status := 200, saved := none }
  | none =>
      { state := s,
        reply := "An unexpected server error occurred. Please check the logs.",
        status := 500, saved := none }

/-- The reply of the reset branch of `chat`. -/
def chat_reset_result : ChatResult :=
  { state := reset_form_state,
    reply := "Hello! Let's fill out a requisition form. Please provide the **" ++
      FORM_FIELDS.headD "" ++ "**.",
    status := 200,
    saved := none }

/-- The `/chat` handler: one step of the conversation. `session` is the
session store's entry for the caller's key (`none` when absent), `message`
the raw message text of the request body. -/
def chat (w : World) (session : Option UserState) (message : String) : ChatResult :=
  let user_input := pyStrip message
  match session with
  | none => chat_reset_result
  | some s =>
      if ["start", "restart", "edit"].contains (pyLower user_input) then
        chat_reset_result
      else if s.special_state == some SUPPLIER_CHECK_STATE then
        handle_supplier_reselection w s user_input
      else if FORM_FIELDS.length ≤ s.current_field_index then
        handle_form_confirmation w s user_input
      else
        process_current_field w s user_input

/-- The session states reachable from a fresh session by `/chat` steps,
under arbitrary collaborator behaviour. -/
inductive Reachable : UserState → Prop where
  | init : Reachable reset_form_state
  | step (w : World) (m : String) {s : UserState} :
      Reachable s → Reachable (chat w (some s) m).state

/-- An input free of the `LIKE` metacharacters `%`, `_` and `\`. -/
def noWild (p : List Char) : Bool :=
  p.all (fun c => !(c == '%' || c == '_' || c == '\\'))

/-- Did the directory lookup succeed, i.e. did `check_supplier_db` find a
row (blacklisted or not)? -/
def lookup_found (w : World) (input : String) : Bool :=
  match check_supplier_db w input with
  | .OK _ => true
  | .BLACKLISTED _ => true
  | .NOT_FOUND _ => false
  | .DB_ERROR => false

theorem noWild_cons {c : Char} {p : List Char} (h : noWild (c :: p) = true) :
    c ≠ '%' ∧ c ≠ '_' ∧ c ≠ '\\' ∧ noWild p = true := by
  simp only [noWild, List.all_cons, Bool.and_eq_true, Bool.not_eq_true',
    Bool.or_eq_false_iff, beq_eq_false_iff_ne, ne_eq] at h
  exact ⟨h.1.1.1, h.1.1.2, h.1.2, h.2⟩

theorem validLikePattern_of_noWild {p : List Char} (h : noWild p = true) :
    validLikePattern p = true := by
  induction p with
  | nil => rfl
  | cons c p ih =>
      obtain ⟨_, _, h3, h4⟩ := noWild_cons h
      unfold validLikePattern
      simp [h3, ih h4]

theorem ilikeF_noWild (fuel : Nat) :
    ∀ p t : List Char, p.length + t.length < fuel → noWild p = true →
    (ilikeF fuel p t = true ↔ p.map Char.toLower = t.map Char.toLower) := by
  induction fuel with
  | zero => intro p t h _; omega
  | succ fuel ih =>
      intro p t hlt hw
      cases p with
      | nil =>
          cases t with
          | nil => simp [ilikeF]
          | cons d t2 => simp [ilikeF]
      | cons c p2 =>
          obtain ⟨h1, h2, h3, h4⟩ := noWild_cons hw
          cases t with
          | nil => simp [ilikeF, h1, h2, h3]
          | cons d t2 =>
              have hr := ih p2 t2 (by simp only [List.length_cons] at hlt; omega) h4
              simp [ilikeF, h1, h2, h3, charILike, Bool.and_eq_true, hr]

/-- On inputs with no `LIKE` metacharacter, `ILIKE` is exactly
case-insensitive equality. -/
theorem ilike_noWild {p t : List Char} (hw : noWild p = true) :
    ilike p t = true ↔ p.map Char.toLower = t.map Char.toLower :=
  ilikeF_noWild (p.length + t.length + 1) p t (by omega) hw

theorem toList_append (a b : String) :
    (a ++ b).toList = a.toList ++ b.toList :=
  String.data_append a b

theorem pyLower_eq_iff {a b : String} :
    pyLower a = pyLower b ↔ a.toList.map Char.toLower = b.toList.map Char.toLower := by
  constructor
  · intro h; exact congrArg String.data h
  · intro h; exact congrArg String.mk h

theorem find?_map_update {k v : String} :
    ∀ d : List (String × String), d.any (fun p => p.fst == k) = true →
      (d.map (fun p => if p.fst == k then (k, v) else p)).find?
        (fun p => p.fst == k) = some (k, v) := by
  intro d
  induction d with
  | nil => intro h; simp at h
  | cons p ps ih =>
      intro h
      rw [List.map_cons]
      by_cases hk : p.fst = k
      · have hf : (if (p.fst == k) = true then (k, v) else p) = (k, v) := by
          simp [hk]
        rw [hf, List.find?_cons_of_pos _ (by simp)]
      · have hk' : (p.fst == k) = false := by simp [hk]
        have hf : (if (p.fst == k) = true then (k, v) else p) = p := by
          simp [hk']
        rw [hf, List.find?_cons_of_neg _ (by simp [hk])]
        exact ih (by simpa [hk'] using h)

theorem find?_of_any_eq_false {k : String} {d : List (String × String)}
    (h : d.any (fun p => p.fst == k) = false) :
    d.find? (fun p => p.fst == k) = none := by
  rw [List.find?_eq_none]
  intro x hx
  have := List.any_eq_false.mp h x hx
  simpa using this

theorem dictGet_dictInsert_self (d : List (String × String)) (k v : String) :
    dictGet (dictInsert d k v) k = some v := by
  unfold dictInsert dictGet
  by_cases h : d.any (fun p => p.fst == k) = true
  · rw [if_pos h, find?_map_update d h]
  · rw [if_neg h, List.find?_append,
      find?_of_any_eq_false (Bool.eq_false_iff.mpr h), Option.none_or,
      List.find?_cons_of_pos _ (by simp)]

theorem find?_map_update_ne {k v k' : String} (hne : k' ≠ k) :
    ∀ d : List (String × String),
      (d.map (fun p => if p.fst == k then (k, v) else p)).find?
        (fun p => p.fst == k') = d.find? (fun p => p.fst == k') := by
  intro d
  induction d with
  | nil => rfl
  | cons p ps ih =>
      rw [List.map_cons]
      by_cases hk : p.fst = k
      · have hf : (if (p.fst == k) = true then (k, v) else p) = (k, v) := by
          simp [hk]
        have h2 : (p.fst == k') = false := by simp [hk, Ne.symm hne]
        rw [hf, List.find?_cons_of_neg _ (by simp [Ne.symm hne]),
          List.find?_cons_of_neg _ (by simp [h2]), ih]
      · have hk' : (p.fst == k) = false := by simp [hk]
        have hf : (if (p.fst == k) = true then (k, v) else p) = p := by
          simp [hk']
        rw [hf]
        by_cases hp : p.fst = k'
        · rw [List.find?_cons_of_pos _ (by simp [hp]),
            List.find?_cons_of_pos _ (by simp [hp])]
        · rw [List.find?_cons_of_neg _ (by simp [hp]),
            List.find?_cons_of_neg _ (by simp [hp]), ih]

theorem dictGet_dictInsert_ne (d : List (String × String)) {k v k' : String}
    (hne : k' ≠ k) : dictGet (dictInsert d k v) k' = dictGet d k' := by
  unfold dictInsert dictGet
  by_cases h : d.any (fun p => p.fst == k) = true
  · rw [if_pos h, find?_map_update_ne hne d]
  · rw [if_neg h, List.find?_append]
    have : ([(k, v)] : List (String × String)).find? (fun p => p.fst == k') = none := by
      simp [List.find?_cons, Ne.symm hne]
    rw [this, Option.or_none]

theorem mem_insertSorted {x y : String} :
    ∀ {l : List String}, y ∈ insertSorted x l ↔ y = x ∨ y ∈ l := by
  intro l
  induction l with
  | nil => simp [insertSorted]
  | cons a l ih =>
      show y ∈ (if charListLe x.toList a.toList then x :: a :: l
                else a :: insertSorted x l) ↔ _
      by_cases h : charListLe x.toList a.toList = true
      · rw [if_pos h]
        simp
      · rw [if_neg h]
        simp only [List.mem_cons, ih]
        tauto

theorem mem_sortByName {x : String} : ∀ {l : List String}, x ∈ l → x ∈ sortByName l := by
  intro l
  induction l with
  | nil => intro h; cases h
  | cons a l ih =>
      intro h
      show x ∈ insertSorted a (sortByName l)
      rcases List.mem_cons.mp h with rfl | h2
      · exact mem_insertSorted.mpr (Or.inl rfl)
      · exact mem_insertSorted.mpr (Or.inr (ih h2))

theorem infix_pyJoin {sep x : String} :
    ∀ {l : List String}, x ∈ l → x.toList <:+: (pyJoin sep l).toList := by
  intro l
  induction l with
  | nil => intro h; cases h
  | cons a l ih =>
      intro h
      cases l with
      | nil =>
          have : x = a := by simpa using h
          subst this
          exact List.infix_refl _
      | cons b l2 =>
          rcases List.mem_cons.mp h with rfl | h2
          · show x.toList <:+: (x ++ sep ++ pyJoin sep (b :: l2)).toList
            rw [toList_append, toList_append, List.append_assoc]
            exact (List.prefix_append _ _).isInfix
          · show x.toList <:+: (a ++ sep ++ pyJoin sep (b :: l2)).toList
            rw [toList_append]
            exact (ih h2).trans (List.suffix_append _ _).isInfix

theorem supplier_field_index {i : Nat}
    (h : FORM_FIELDS.get? i = some "Supplier Preference") : i = 4 := by
  match i with
  | 0 | 1 | 2 | 3 | 5 => exact absurd h (by decide)
  | 4 => rfl
  | n + 6 =>
      rw [List.get?_eq_none.mpr (by simp [FORM_FIELDS])] at h
      cases h

theorem chat_trigger {w : World} {s : UserState} {m : String}
    (h : (["start", "restart", "edit"].contains (pyLower (pyStrip m))) = true) :
    chat w (some s) m = chat_reset_result := by
  simp only [chat]
  rw [if_pos h]

theorem chat_reselection {w : World} {s : UserState} {m : String}
    (htrig : (["start", "restart", "edit"].contains (pyLower (pyStrip m))) = false)
    (hsp : s.special_state = some SUPPLIER_CHECK_STATE) :
    chat w (some s) m = handle_supplier_reselection w s (pyStrip m) := by
  simp only [chat]
  rw [if_neg (by simpa using htrig), if_pos (by simp [hsp])]

theorem chat_confirmation {w : World} {s : UserState} {m : String}
    (htrig : (["start", "restart", "edit"].contains (pyLower (pyStrip m))) = false)
    (hsp : s.special_state ≠ some SUPPLIER_CHECK_STATE)
    (hidx : FORM_FIELDS.length ≤ s.current_field_index) :
    chat w (some s) m = handle_form_confirmation w s (pyStrip m) := by
  simp only [chat]
  rw [if_neg (by simpa using htrig), if_neg (by simp [hsp]), if_pos hidx]

theorem chat_collecting {w : World} {s : UserState} {m : String}
    (htrig : (["start", "restart", "edit"].contains (pyLower (pyStrip m))) = false)
    (hsp : s.special_state ≠ some SUPPLIER_CHECK_STATE)
    (hidx : s.current_field_index < FORM_FIELDS.length) :
    chat w (some s) m = process_current_field w s (pyStrip m) := by
  simp only [chat]
  rw [if_neg (by simpa using htrig), if_neg (by simp [hsp]), if_neg (by omega)]

/-- C4: for every session state and every message that trims and lowercases
to `start`, `restart` or `edit`, the step resets the session to the initial
state and replies with the first field's prompt, persisting nothing; this
branch runs before every other rule of the handler. -/
theorem restart_trigger_resets (w : World) (s : UserState) (m : String)
    (h : pyLower (pyStrip m) = "start" ∨ pyLower (pyStrip m) = "restart" ∨
      pyLower (pyStrip m) = "edit") :
    (chat w (some s) m).state = reset_form_state ∧
    (chat w (some s) m).reply =
      "Hello! Let's fill out a requisition form. Please provide the **Requester Information**." ∧
    (chat w (some s) m).saved = none := by
  have ht : (["start", "restart", "edit"].contains (pyLower (pyStrip m))) = true := by
    rcases h with h | h | h <;> rw [h] <;> decide
  rw [chat_trigger ht]
  refine ⟨rfl, ?_, rfl⟩
  rfl

/-- C4 witness: from a mid-form state with the supplier sub-state set,
the message `  ReStart  ` resets everything. -/
theorem restart_trigger_resets_witness :
    (chat ⟨[], true, true, true, "e"⟩
        (some ⟨4, [("Requester Information", "me")], some SUPPLIER_CHECK_STATE⟩)
        "  ReStart  ").state = reset_form_state ∧
    (chat ⟨[], true, true, true, "e"⟩
        (some ⟨4, [("Requester Information", "me")], some SUPPLIER_CHECK_STATE⟩)
        "  ReStart  ").reply =
      "Hello! Let's fill out a requisition form. Please provide the **Requester Information**." ∧
    (chat ⟨[], true, true, true, "e"⟩
        (some ⟨4, [("Requester Information", "me")], some SUPPLIER_CHECK_STATE⟩)
        "  ReStart  ").saved = none :=
  restart_trigger_resets _ _ _ (Or.inr (Or.inl (by decide)))

/-- C10: a message from a session key with no entry in the session store
always initialises a fresh state and replies with the first field's prompt;
the message itself is not stored and the cursor does not advance, whatever
its content. -/
theorem fresh_session_initialises (w : World) (m : String) :
    (chat w none m).state = reset_form_state ∧
    (chat w none m).state.current_field_index = 0 ∧
    (chat w none m).state.form_data = [] ∧
    (chat w none m).reply =
      "Hello! Let's fill out a requisition form. Please provide the **Requester Information**." ∧
    (chat w none m).saved = none :=
  ⟨rfl, rfl, rfl, rfl, rfl⟩

theorem check_db_down {w : World} (hw : w.lookup_ok = false) (x : String) :
    check_supplier_db w x = .DB_ERROR := by
  simp [check_supplier_db, hw]

theorem handle_bad_supplier_state (w : World) (s : UserState) (st n : String) :
    (handle_bad_supplier w s st n).state =
      { s with special_state := some SUPPLIER_CHECK_STATE } := by
  simp only [handle_bad_supplier]
  split <;> rfl

theorem handle_bad_supplier_saved (w : World) (s : UserState) (st n : String) :
    (handle_bad_supplier w s st n).saved = none := by
  simp only [handle_bad_supplier]
  split <;> rfl

theorem preference_cases (w : World) (s : UserState) (u : String) :
    (handle_supplier_preference w s u).status = 200 ∨
    handle_supplier_preference w s u =
      { state := s, reply := "Database Error: " ++ w.error_text, status := 500,
        saved := none } ∨
    (∃ st n, handle_supplier_preference w s u = handle_bad_supplier w s st n) := by
  unfold handle_supplier_preference
  by_cases h : (["skip", "none", "no preference", "blank"].contains (pyLower u)) = true
  · rw [if_pos h]
    exact Or.inl rfl
  · rw [if_neg h]
    cases hc : check_supplier_db w u with
    | OK row => exact Or.inl rfl
    | DB_ERROR => exact Or.inr (Or.inl rfl)
    | BLACKLISTED n => exact Or.inr (Or.inr ⟨"BLACKLISTED", n, rfl⟩)
    | NOT_FOUND n => exact Or.inr (Or.inr ⟨"NOT_FOUND", n, rfl⟩)

theorem reselection_cases (w : World) (s : UserState) (u : String) :
    (handle_supplier_reselection w s u).status = 200 ∨
    handle_supplier_reselection w s u =
      { state := s, reply := "Database Error: " ++ w.error_text, status := 500,
        saved := none } ∨
    (∃ st n, handle_supplier_reselection w s u = handle_bad_supplier w s st n) := by
  unfold handle_supplier_reselection
  by_cases h : (["skip", "none", "no preference", "blank"].contains (pyLower u)) = true
  · rw [if_pos h]
    exact Or.inl rfl
  · rw [if_neg h]
    cases hc : check_supplier_db w u with
    | OK row => exact Or.inl rfl
    | DB_ERROR => exact Or.inr (Or.inl rfl)
    | BLACKLISTED n => exact Or.inr (Or.inr ⟨"BLACKLISTED", n, rfl⟩)
    | NOT_FOUND n => exact Or.inr (Or.inr ⟨"NOT_FOUND", n, rfl⟩)

theorem preference_db_error {w : World} {s : UserState} {u : String}
    (hc : check_supplier_db w u = .DB_ERROR) :
    (handle_supplier_preference w s u).status = 200 ∨
    handle_supplier_preference w s u =
      { state := s, reply := "Database Error: " ++ w.error_text, status := 500,
        saved := none } := by
  unfold handle_supplier_preference
  by_cases h : (["skip", "none", "no preference", "blank"].contains (pyLower u)) = true
  · rw [if_pos h]
    exact Or.inl rfl
  · rw [if_neg h, hc]
    exact Or.inr rfl

theorem reselection_db_error {w : World} {s : UserState} {u : String}
    (hc : check_supplier_db w u = .DB_ERROR) :
    (handle_supplier_reselection w s u).status = 200 ∨
    handle_supplier_reselection w s u =
      { state := s, reply := "Database Error: " ++ w.error_text, status := 500,
        saved := none } := by
  unfold handle_supplier_reselection
  by_cases h : (["skip", "none", "no preference", "blank"].contains (pyLower u)) = true
  · rw [if_pos h]
    exact Or.inl rfl
  · rw [if_neg h, hc]
    exact Or.inr rfl

theorem confirmation_cases (w : World) (s : UserState) (u : String) :
    (handle_form_confirmation w s u).status = 200 ∨
    handle_form_confirmation w s u =
      { state := s, reply := "A database error occurred while saving the form.",
        status := 500, saved := none } := by
  unfold handle_form_confirmation save_form
  by_cases h : (pyLower u == "save") = true
  · rw [if_pos h]
    by_cases hi : w.insert_ok = true
    · rw [if_pos hi]
      exact Or.inl rfl
    · rw [if_neg hi]
      exact Or.inr rfl
  · rw [if_neg h]
    exact Or.inl rfl

theorem process_cases (w : World) (s : UserState) (u : String) :
    (process_current_field w s u).status = 200 ∨
    process_current_field w s u = handle_supplier_preference w s u ∨
    process_current_field w s u =
      { state := s,
        reply := "An unexpected server error occurred. Please check the logs.",
        status := 500, saved := none } := by
  unfold process_current_field
  cases hf : FORM_FIELDS.get? s.current_field_index with
  | none => exact Or.inr (Or.inr rfl)
  | some f =>
      dsimp only
      by_cases h : (f == "Supplier Preference") = true
      · rw [if_pos h]
        exact Or.inr (Or.inl rfl)
      · rw [if_neg h]
        exact Or.inl rfl

/-- What an error (500) reply leaves of the session: cursor and collected
fields exactly as before, nothing persisted; the sub-state marker either as
before or set to the supplier-choice marker. -/
def ErrorFrame (s : UserState) (r : ChatResult) : Prop :=
  r.state.current_field_index = s.current_field_index ∧
  r.state.form_data = s.form_data ∧
  r.saved = none ∧
  (r.state.special_state = s.special_state ∨
    r.state.special_state = some SUPPLIER_CHECK_STATE)

/-- C2 (amended): every error (500) reply leaves the cursor and the
collected fields exactly as before the step and persists nothing; the
sub-state marker is unchanged except that a failure of the approved-supplier
listing (entered after an unknown/blacklisted resolution) leaves it set to
AWAITING_SUPPLIER_CHOICE. When the failing collaborator call is the
directory lookup itself, the session state is entirely unchanged. -/
theorem collaborator_failure_frame (w : World) (s : UserState) (m : String) :
    ((chat w (some s) m).status = 500 → ErrorFrame s (chat w (some s) m)) ∧
    (w.lookup_ok = false → (chat w (some s) m).status = 500 →
      (chat w (some s) m).state = s) := by
  by_cases htrig : (["start", "restart", "edit"].contains (pyLower (pyStrip m))) = true
  · rw [chat_trigger htrig]
    exact ⟨fun h => absurd h (by decide), fun _ h => absurd h (by decide)⟩
  · have htrig2 := Bool.eq_false_iff.mpr htrig
    by_cases hsp : s.special_state = some SUPPLIER_CHECK_STATE
    · rw [chat_reselection htrig2 hsp]
      constructor
      · intro h500
        rcases reselection_cases w s (pyStrip m) with h200 | hdb | ⟨st, n, hbad⟩
        · exact absurd (h200.symm.trans h500) (by decide)
        · rw [hdb]
          exact ⟨rfl, rfl, rfl, Or.inl rfl⟩
        · rw [hbad]
          exact ⟨by rw [handle_bad_supplier_state],
            by rw [handle_bad_supplier_state],
            handle_bad_supplier_saved w s st n,
            Or.inr (by rw [handle_bad_supplier_state])⟩
      · intro hw h500
        rcases reselection_db_error (check_db_down hw (pyStrip m)) with h200 | hdb
        · exact absurd (h200.symm.trans h500) (by decide)
        · rw [hdb]
    · by_cases hidx : FORM_FIELDS.length ≤ s.current_field_index
      · rw [chat_confirmation htrig2 hsp hidx]
        constructor
        · intro h500
          rcases confirmation_cases w s (pyStrip m) with h200 | hdb
          · exact absurd (h200.symm.trans h500) (by decide)
          · rw [hdb]
            exact ⟨rfl, rfl, rfl, Or.inl rfl⟩
        · intro _ h500
          rcases confirmation_cases w s (pyStrip m) with h200 | hdb
          · exact absurd (h200.symm.trans h500) (by decide)
          · rw [hdb]
      · rw [chat_collecting htrig2 hsp (by omega)]
        constructor
        · intro h500
          rcases process_cases w s (pyStrip m) with h200 | hpref | herr
          · exact absurd (h200.symm.trans h500) (by decide)
          · rw [hpref] at h500 ⊢
            rcases preference_cases w s (pyStrip m) with h200 | hdb | ⟨st, n, hbad⟩
            · exact absurd (h200.symm.trans h500) (by decide)
            · rw [hdb]
              exact ⟨rfl, rfl, rfl, Or.inl rfl⟩
            · rw [hbad]
              exact ⟨by rw [handle_bad_supplier_state],
                by rw [handle_bad_supplier_state],
                handle_bad_supplier_saved w s st n,
                Or.inr (by rw [handle_bad_supplier_state])⟩
          · rw [herr]
            exact ⟨rfl, rfl, rfl, Or.inl rfl⟩
        · intro hw h500
          rcases process_cases w s (pyStrip m) with h200 | hpref | herr
          · exact absurd (h200.symm.trans h500) (by decide)
          · rw [hpref] at h500 ⊢
            rcases preference_db_error (check_db_down hw (pyStrip m)) with h200 | hdb
            · exact absurd (h200.symm.trans h500) (by decide)
            · rw [hdb]
          · rw [herr]

/-- C2 witness: with the directory lookup collaborator down, a supplier
input at the Supplier Preference field yields a 500 and the very same
session state. -/
theorem collaborator_failure_frame_witness :
    (chat ⟨[], false, true, true, "x"⟩ (some ⟨4, [], none⟩) "Acme").state =
      ⟨4, [], none⟩ :=
  (collaborator_failure_frame ⟨[], false, true, true, "x"⟩ ⟨4, [], none⟩ "Acme").2
    rfl (by decide)

/-- C2 counterexample: when the approved-supplier listing fails after an
unknown supplier was entered, the reply is a 500 yet the session state has
changed (the sub-state marker was set before the failing call), refuting
the claim that the state is exactly what it was before the step. -/
theorem collaborator_failure_counterexample :
    (chat ⟨[], true, false, true, "x"⟩ (some ⟨4, [], none⟩) "Acme").status = 500 ∧
    (chat ⟨[], true, false, true, "x"⟩ (some ⟨4, [], none⟩) "Acme").state ≠
      ⟨4, [], none⟩ := by
  decide

/-- C3: in the confirming state, `save` either persists the requisition row
built from the collected fields and resets the session to the initial
state, or (when the INSERT fails) persists nothing and leaves the session
state entirely unchanged with an error reply; no other outcome exists. -/
theorem save_atomic (w : World) (s : UserState) (m : String)
    (hsp : s.special_state = none)
    (hidx : FORM_FIELDS.length ≤ s.current_field_index)
    (hm : pyLower (pyStrip m) = "save") :
    ((chat w (some s) m).saved = some (build_requisition s.form_data) ∧
      (chat w (some s) m).state = reset_form_state ∧
      (chat w (some s) m).status = 200) ∨
    ((chat w (some s) m).saved = none ∧ (chat w (some s) m).state = s ∧
      (chat w (some s) m).status = 500) := by
  have htrig : (["start", "restart", "edit"].contains (pyLower (pyStrip m))) = false := by
    rw [hm]
    decide
  rw [chat_confirmation htrig (by simp [hsp]) hidx]
  unfold handle_form_confirmation save_form
  rw [if_pos (show (pyLower (pyStrip m) == "save") = true by rw [hm]; decide)]
  by_cases hi : w.insert_ok = true
  · rw [if_pos hi]
    exact Or.inl ⟨rfl, rfl, rfl⟩
  · rw [if_neg hi]
    exact Or.inr ⟨rfl, rfl, rfl⟩

/-- C3 witness: a concrete confirming session saving successfully. -/
theorem save_atomic_witness :
    ((chat ⟨[], true, true, true, ""⟩
        (some ⟨6, [("Requester Information", "me")], none⟩) " SAVE ").saved =
        some (build_requisition [("Requester Information", "me")]) ∧
      (chat ⟨[], true, true, true, ""⟩
        (some ⟨6, [("Requester Information", "me")], none⟩) " SAVE ").state =
        reset_form_state ∧
      (chat ⟨[], true, true, true, ""⟩
        (some ⟨6, [("Requester Information", "me")], none⟩) " SAVE ").status = 200) ∨
    ((chat ⟨[], true, true, true, ""⟩
        (some ⟨6, [("Requester Information", "me")], none⟩) " SAVE ").saved = none ∧
      (chat ⟨[], true, true, true, ""⟩
        (some ⟨6, [("Requester Information", "me")], none⟩) " SAVE ").state =
        ⟨6, [("Requester Information", "me")], none⟩ ∧
      (chat ⟨[], true, true, true, ""⟩
        (some ⟨6, [("Requester Information", "me")], none⟩) " SAVE ").status = 500) :=
  save_atomic ⟨[], true, true, true, ""⟩ ⟨6, [("Requester Information", "me")], none⟩
    " SAVE " rfl (by decide) (by decide)

/-- C7: in the confirming state (cursor equal to the number of fields, no
sub-state), the input `save` (case-insensitive) triggers the persistence
attempt — succeeding exactly when the INSERT succeeds — and every other
input resets the session to the initial state persisting nothing. -/
theorem confirm_save_only (w : World) (s : UserState) (m : String)
    (hsp : s.special_state = none)
    (hidx : s.current_field_index = FORM_FIELDS.length) :
    (pyLower (pyStrip m) = "save" →
      (w.insert_ok = true →
        (chat w (some s) m).saved = some (build_requisition s.form_data) ∧
        (chat w (some s) m).state = reset_form_state) ∧
      (w.insert_ok = false →
        (chat w (some s) m).saved = none ∧ (chat w (some s) m).state = s)) ∧
    (pyLower (pyStrip m) ≠ "save" →
      (chat w (some s) m).saved = none ∧
      (chat w (some s) m).state = reset_form_state) := by
  have hle : FORM_FIELDS.length ≤ s.current_field_index := le_of_eq hidx.symm
  constructor
  · intro hm
    have htrig : (["start", "restart", "edit"].contains (pyLower (pyStrip m))) = false := by
      rw [hm]
      decide
    rw [chat_confirmation htrig (by simp [hsp]) hle]
    unfold handle_form_confirmation save_form
    rw [if_pos (show (pyLower (pyStrip m) == "save") = true by rw [hm]; decide)]
    constructor
    · intro hi
      rw [if_pos hi]
      exact ⟨rfl, rfl⟩
    · intro hi
      rw [if_neg (by simp [hi])]
      exact ⟨rfl, rfl⟩
  · intro hm
    by_cases htrig : (["start", "restart", "edit"].contains (pyLower (pyStrip m))) = true
    · rw [chat_trigger htrig]
      exact ⟨rfl, rfl⟩
    · rw [chat_confirmation (Bool.eq_false_iff.mpr htrig) (by simp [hsp]) hle]
      unfold handle_form_confirmation
      rw [if_neg (by simp [hm])]
      exact ⟨rfl, rfl⟩

/-- C7 witness: a non-`save` input on the summary screen resets without
persisting. -/
theorem confirm_save_only_witness :
    (chat ⟨[], true, true, true, ""⟩ (some ⟨6, [], none⟩) "nope").saved = none ∧
    (chat ⟨[], true, true, true, ""⟩ (some ⟨6, [], none⟩) "nope").state =
      reset_form_state :=
  (confirm_save_only ⟨[], true, true, true, ""⟩ ⟨6, [], none⟩ "nope" rfl
    (by decide)).2 (by decide)

/-- C1 (amended): with the directory reachable, the lookup matches the
input as a case-insensitive SQL `LIKE` pattern against supplier names; for
every input containing none of the metacharacters `%`, `_`, `\` this is
exactly case-insensitive equality: the lookup succeeds iff some record's
name equals the input up to letter case. (Inputs containing metacharacters
can partial-match, refuting the unamended claim.) -/
theorem supplier_lookup_exact (w : World) (input : String)
    (hw : w.lookup_ok = true) (hn : noWild input.toList = true) :
    lookup_found w input = true ↔
      ∃ r ∈ w.suppliers, pyLower r.name = pyLower input := by
  have hv : (w.lookup_ok && validLikePattern input.toList) = true := by
    rw [hw, validLikePattern_of_noWild hn]
    rfl
  unfold lookup_found check_supplier_db
  rw [if_pos hv]
  cases hfind : w.suppliers.find? (fun r => ilike input.toList r.name.toList) with
  | none =>
      dsimp only
      constructor
      · intro h
        cases h
      · rintro ⟨r, hr, he⟩
        have hil : ilike input.toList r.name.toList = true := by
          rw [ilike_noWild hn]
          exact (pyLower_eq_iff.mp he).symm
        exact absurd hil (by simpa using List.find?_eq_none.mp hfind r hr)
  | some r =>
      have hr := List.mem_of_find?_eq_some hfind
      have hil : ilike input.toList r.name.toList = true := by
        simpa using List.find?_some hfind
      have he : pyLower r.name = pyLower input :=
        pyLower_eq_iff.mpr ((ilike_noWild hn).mp hil).symm
      dsimp only
      by_cases hb : r.is_blacklisted = true
      · rw [if_pos hb]
        exact ⟨fun _ => ⟨r, hr, he⟩, fun _ => rfl⟩
      · rw [if_neg hb]
        exact ⟨fun _ => ⟨r, hr, he⟩, fun _ => rfl⟩

/-- C1 counterexample: the input `A%` succeeds against a directory holding
only `Acme` (the `%` of the `ILIKE` pattern partial-matches), though no
record's name equals `A%` up to case — the lookup is not an exact
case-insensitive match on all inputs. -/
theorem supplier_lookup_exact_counterexample :
    lookup_found ⟨[⟨"Acme", "1 Road", "555", false⟩], true, true, true, "e"⟩
      "A%" = true ∧
    ¬ ∃ r ∈ ([⟨"Acme", "1 Road", "555", false⟩] : List Supplier),
        pyLower r.name = pyLower "A%" := by
  decide

/-- C1 witness: the wildcard-free input `ACME` resolves iff a record's name
case-insensitively equals it. -/
theorem supplier_lookup_exact_witness :
    lookup_found ⟨[⟨"Acme", "1 Road", "555", false⟩], true, true, true, "e"⟩
      "ACME" = true ↔
    ∃ r ∈ ([⟨"Acme", "1 Road", "555", false⟩] : List Supplier),
        pyLower r.name = pyLower "ACME" :=
  supplier_lookup_exact ⟨[⟨"Acme", "1 Road", "555", false⟩], true, true, true, "e"⟩
    "ACME" rfl (by decide)

theorem handle_bad_supplier_approved_infix {w : World} {s : UserState}
    {st n : String} (hap : w.approved_ok = true) {r : Supplier}
    (hr : r ∈ w.suppliers) (hbl : r.is_blacklisted = false) :
    r.name.toList <:+: (handle_bad_supplier w s st n).reply.toList := by
  have hmem : r.name ∈ approved_suppliers w :=
    mem_sortByName
      (List.mem_map_of_mem Supplier.name (List.mem_filter.mpr ⟨hr, by simp [hbl]⟩))
  have hjoin : r.name.toList <:+: (pyJoin "\n- " (approved_suppliers w)).toList :=
    infix_pyJoin hmem
  simp only [handle_bad_supplier]
  rw [if_pos hap]
  dsimp only
  rw [toList_append]
  exact hjoin.trans (List.suffix_append _ _).isInfix

theorem preference_bad {w : World} {s : UserState} {u n : String}
    (hskip : (["skip", "none", "no preference", "blank"].contains (pyLower u)) = false)
    (hres : check_supplier_db w u = .NOT_FOUND n ∨
      check_supplier_db w u = .BLACKLISTED n) :
    ∃ st, handle_supplier_preference w s u = handle_bad_supplier w s st n := by
  unfold handle_supplier_preference
  rw [if_neg (by simpa using hskip)]
  rcases hres with h | h
  · rw [h]
    exact ⟨"NOT_FOUND", rfl⟩
  · rw [h]
    exact ⟨"BLACKLISTED", rfl⟩

theorem reselection_bad {w : World} {s : UserState} {u n : String}
    (hskip : (["skip", "none", "no preference", "blank"].contains (pyLower u)) = false)
    (hres : check_supplier_db w u = .NOT_FOUND n ∨
      check_supplier_db w u = .BLACKLISTED n) :
    ∃ st, handle_supplier_reselection w s u = handle_bad_supplier w s st n := by
  unfold handle_supplier_reselection
  rw [if_neg (by simpa using hskip)]
  rcases hres with h | h
  · rw [h]
    exact ⟨"NOT_FOUND", rfl⟩
  · rw [h]
    exact ⟨"BLACKLISTED", rfl⟩

theorem collecting_supplier_field {w : World} {s : UserState} {m : String}
    (htrig : (["start", "restart", "edit"].contains (pyLower (pyStrip m))) = false)
    (hsp : s.special_state = none) (hidx : s.current_field_index = 4) :
    chat w (some s) m = handle_supplier_preference w s (pyStrip m) := by
  rw [chat_collecting htrig (by simp [hsp]) (by rw [hidx]; decide)]
  unfold process_current_field
  rw [hidx]
  rfl

/-- C5: an input for the Supplier Preference field (whether in plain
collecting mode at that field or in the supplier-choice sub-state) that
resolves to an unknown or blacklisted supplier never advances the cursor,
and — whenever the approved-supplier listing collaborator responds — the
reply contains every non-blacklisted supplier's name. -/
theorem bad_supplier_no_advance (w : World) (s : UserState) (m n : String)
    (hmode : (s.special_state = none ∧ s.current_field_index = 4) ∨
      s.special_state = some SUPPLIER_CHECK_STATE)
    (htrig : (["start", "restart", "edit"].contains (pyLower (pyStrip m))) = false)
    (hskip : (["skip", "none", "no preference", "blank"].contains
      (pyLower (pyStrip m))) = false)
    (hres : check_supplier_db w (pyStrip m) = .NOT_FOUND n ∨
      check_supplier_db w (pyStrip m) = .BLACKLISTED n) :
    (chat w (some s) m).state.current_field_index = s.current_field_index ∧
    (w.approved_ok = true → ∀ r ∈ w.suppliers, r.is_blacklisted = false →
      r.name.toList <:+: (chat w (some s) m).reply.toList) := by
  have key : ∃ st, chat w (some s) m = handle_bad_supplier w s st n := by
    rcases hmode with ⟨hsp, hidx⟩ | hsp
    · rw [collecting_supplier_field htrig hsp hidx]
      exact preference_bad hskip hres
    · rw [chat_reselection htrig hsp]
      exact reselection_bad hskip hres
  obtain ⟨st, hkey⟩ := key
  rw [hkey]
  constructor
  · rw [handle_bad_supplier_state]
  · intro hap r hr hbl
    exact handle_bad_supplier_approved_infix hap hr hbl

/-- C5 witness: an unknown supplier name at the Supplier Preference field
leaves the cursor at 4 and the approved supplier `Acme` appears in the
reply. -/
theorem bad_supplier_no_advance_witness :
    (chat ⟨[⟨"Acme", "1 Road", "555", false⟩], true, true, true, ""⟩
      (some ⟨4, [], none⟩) "Foo").state.current_field_index = 4 ∧
    "Acme".toList <:+:
      (chat ⟨[⟨"Acme", "1 Road", "555", false⟩], true, true, true, ""⟩
        (some ⟨4, [], none⟩) "Foo").reply.toList :=
  have h := bad_supplier_no_advance
    ⟨[⟨"Acme", "1 Road", "555", false⟩], true, true, true, ""⟩ ⟨4, [], none⟩
    "Foo" "Foo" (Or.inl ⟨rfl, rfl⟩) (by decide) (by decide) (Or.inl (by decide))
  ⟨h.1, h.2 rfl ⟨"Acme", "1 Road", "555", false⟩ (by decide) rfl⟩

theorem preference_ok_state {w : World} {s : UserState} {u : String} {row : Supplier}
    (hskip : (["skip", "none", "no preference", "blank"].contains (pyLower u)) = false)
    (hc : check_supplier_db w u = .OK row) :
    (handle_supplier_preference w s u).state.form_data =
      populate_supplier_data s.form_data row ∧
    (handle_supplier_preference w s u).state.current_field_index =
      s.current_field_index + 1 := by
  unfold handle_supplier_preference
  rw [if_neg (by simpa using hskip), hc]
  exact ⟨rfl, rfl⟩

theorem reselection_ok_state {w : World} {s : UserState} {u : String} {row : Supplier}
    (hskip : (["skip", "none", "no preference", "blank"].contains (pyLower u)) = false)
    (hc : check_supplier_db w u = .OK row) :
    (handle_supplier_reselection w s u).state.form_data =
      populate_supplier_data s.form_data row ∧
    (handle_supplier_reselection w s u).state.current_field_index =
      s.current_field_index + 1 := by
  unfold handle_supplier_reselection
  rw [if_neg (by simpa using hskip), hc]
  exact ⟨rfl, rfl⟩

theorem dictGet_populate_self (d : List (String × String)) (row : Supplier) :
    dictGet (populate_supplier_data d row) "Supplier Preference" = some row.name ∧
    dictGet (populate_supplier_data d row) "Supplier Name" = some row.name ∧
    dictGet (populate_supplier_data d row) "Supplier Address" = some row.address ∧
    dictGet (populate_supplier_data d row) "Supplier Contact" =
      some row.contact_number := by
  unfold populate_supplier_data
  refine ⟨?_, ?_, ?_, ?_⟩
  · rw [dictGet_dictInsert_ne _ (by decide), dictGet_dictInsert_ne _ (by decide),
      dictGet_dictInsert_ne _ (by decide), dictGet_dictInsert_self]
  · rw [dictGet_dictInsert_ne _ (by decide), dictGet_dictInsert_ne _ (by decide),
      dictGet_dictInsert_self]
  · rw [dictGet_dictInsert_ne _ (by decide), dictGet_dictInsert_self]
  · rw [dictGet_dictInsert_self]

theorem dictGet_populate_ne (d : List (String × String)) (row : Supplier)
    (k : String) (h1 : k ≠ "Supplier Preference") (h2 : k ≠ "Supplier Name")
    (h3 : k ≠ "Supplier Address") (h4 : k ≠ "Supplier Contact") :
    dictGet (populate_supplier_data d row) k = dictGet d k := by
  unfold populate_supplier_data
  rw [dictGet_dictInsert_ne _ h4, dictGet_dictInsert_ne _ h3,
    dictGet_dictInsert_ne _ h2, dictGet_dictInsert_ne _ h1]

/-- C6: an input for the Supplier Preference field resolving to a
non-blacklisted directory row sets exactly the four supplier keys from the
row's values, leaves every other collected field untouched, and advances
the cursor by exactly one. -/
theorem good_supplier_populates (w : World) (s : UserState) (m : String)
    (row : Supplier)
    (hmode : (s.special_state = none ∧ s.current_field_index = 4) ∨
      s.special_state = some SUPPLIER_CHECK_STATE)
    (htrig : (["start", "restart", "edit"].contains (pyLower (pyStrip m))) = false)
    (hskip : (["skip", "none", "no preference", "blank"].contains
      (pyLower (pyStrip m))) = false)
    (hok : check_supplier_db w (pyStrip m) = .OK row) :
    dictGet (chat w (some s) m).state.form_data "Supplier Preference" =
      some row.name ∧
    dictGet (chat w (some s) m).state.form_data "Supplier Name" = some row.name ∧
    dictGet (chat w (some s) m).state.form_data "Supplier Address" =
      some row.address ∧
    dictGet (chat w (some s) m).state.form_data "Supplier Contact" =
      some row.contact_number ∧
    (∀ k, k ≠ "Supplier Preference" → k ≠ "Supplier Name" →
      k ≠ "Supplier Address" → k ≠ "Supplier Contact" →
      dictGet (chat w (some s) m).state.form_data k = dictGet s.form_data k) ∧
    (chat w (some s) m).state.current_field_index = s.current_field_index + 1 := by
  have key : (chat w (some s) m).state.form_data =
      populate_supplier_data s.form_data row ∧
      (chat w (some s) m).state.current_field_index = s.current_field_index + 1 := by
    rcases hmode with ⟨hsp, hidx⟩ | hsp
    · rw [collecting_supplier_field htrig hsp hidx]
      exact preference_ok_state hskip hok
    · rw [chat_reselection htrig hsp]
      exact reselection_ok_state hskip hok
  obtain ⟨hform, hidx2⟩ := key
  rw [hform]
  obtain ⟨g1, g2, g3, g4⟩ := dictGet_populate_self s.form_data row
  exact ⟨g1, g2, g3, g4,
    fun k h1 h2 h3 h4 => dictGet_populate_ne s.form_data row k h1 h2 h3 h4, hidx2⟩

/-- C6 witness: resolving `acme` against a directory holding `Acme` fills
the four supplier keys, keeps the earlier field, and moves the cursor from
4 to 5. -/
theorem good_supplier_populates_witness :
    dictGet (chat ⟨[⟨"Acme", "1 Road", "555", false⟩], true, true, true, ""⟩
      (some ⟨4, [("Requester Information", "me")], none⟩) "acme").state.form_data
      "Supplier Name" = some "Acme" ∧
    dictGet (chat ⟨[⟨"Acme", "1 Road", "555", false⟩], true, true, true, ""⟩
      (some ⟨4, [("Requester Information", "me")], none⟩) "acme").state.form_data
      "Requester Information" = some "me" ∧
    (chat ⟨[⟨"Acme", "1 Road", "555", false⟩], true, true, true, ""⟩
      (some ⟨4, [("Requester Information", "me")], none⟩)
      "acme").state.current_field_index = 5 :=
  have h := good_supplier_populates
    ⟨[⟨"Acme", "1 Road", "555", false⟩], true, true, true, ""⟩
    ⟨4, [("Requester Information", "me")], none⟩ "acme"
    ⟨"Acme", "1 Road", "555", false⟩ (Or.inl ⟨rfl, rfl⟩) (by decide) (by decide)
    (by decide)
  ⟨h.2.1,
    by rw [h.2.2.2.2.1 "Requester Information" (by decide) (by decide) (by decide)
      (by decide)]; decide,
    h.2.2.2.2.2⟩

/-- C8 counterexample: the message ` my name ` at the first field is stored
as `my name` — the handler strips the message before storing, so the stored
value is not the message character for character. -/
theorem verbatim_store_counterexample :
    (chat ⟨[], true, true, true, ""⟩ (some reset_form_state)
      " my name ").state.form_data = [("Requester Information", "my name")] ∧
    (" my name " : String) ≠ "my name" := by
  decide

/-- C8 (amended): at a non-supplier field in collecting mode, the step
stores the trimmed message (Python `str.strip` of the text, otherwise
verbatim) under that field and increments the cursor by one. -/
theorem trimmed_store (w : World) (s : UserState) (m f : String)
    (hsp : s.special_state = none)
    (hf : FORM_FIELDS.get? s.current_field_index = some f)
    (hns : f ≠ "Supplier Preference")
    (htrig : (["start", "restart", "edit"].contains (pyLower (pyStrip m))) = false) :
    (chat w (some s) m).state.form_data = dictInsert s.form_data f (pyStrip m) ∧
    dictGet (chat w (some s) m).state.form_data f = some (pyStrip m) ∧
    (chat w (some s) m).state.current_field_index = s.current_field_index + 1 := by
  have hlt : s.current_field_index < FORM_FIELDS.length := by
    rcases List.get?_eq_some.mp hf with ⟨h, _⟩
    exact h
  rw [chat_collecting htrig (by simp [hsp]) hlt]
  unfold process_current_field
  rw [hf]
  dsimp only
  rw [if_neg (by simp [hns])]
  exact ⟨rfl, by exact dictGet_dictInsert_self s.form_data f (pyStrip m), rfl⟩

/-- C8 witness: a fresh session stores ` my name ` as `my name` under the
first field and the cursor moves to 1. -/
theorem trimmed_store_witness :
    (chat ⟨[], true, true, true, ""⟩ (some reset_form_state)
      " my name ").state.form_data = [("Requester Information", "my name")] ∧
    (chat ⟨[], true, true, true, ""⟩ (some reset_form_state)
      " my name ").state.current_field_index = 1 :=
  have h := trimmed_store ⟨[], true, true, true, ""⟩ reset_form_state " my name "
    "Requester Information" rfl rfl (by decide) (by decide)
  ⟨by rw [h.1]; decide, h.2.2⟩

theorem reselection_state_cases (w : World) (s : UserState) (u : String) :
    (handle_supplier_reselection w s u).state.special_state = none ∨
    (handle_supplier_reselection w s u).state = s ∨
    (handle_supplier_reselection w s u).state =
      { s with special_state := some SUPPLIER_CHECK_STATE } := by
  unfold handle_supplier_reselection
  by_cases h : (["skip", "none", "no preference", "blank"].contains (pyLower u)) = true
  · rw [if_pos h]
    exact Or.inl rfl
  · rw [if_neg h]
    cases hc : check_supplier_db w u with
    | OK row => exact Or.inl rfl
    | DB_ERROR => exact Or.inr (Or.inl rfl)
    | BLACKLISTED n => exact Or.inr (Or.inr (handle_bad_supplier_state w s _ n))
    | NOT_FOUND n => exact Or.inr (Or.inr (handle_bad_supplier_state w s _ n))

theorem preference_state_cases (w : World) (s : UserState) (u : String) :
    (handle_supplier_preference w s u).state.special_state = s.special_state ∨
    (handle_supplier_preference w s u).state = s ∨
    (handle_supplier_preference w s u).state =
      { s with special_state := some SUPPLIER_CHECK_STATE } := by
  unfold handle_supplier_preference
  by_cases h : (["skip", "none", "no preference", "blank"].contains (pyLower u)) = true
  · rw [if_pos h]
    exact Or.inl rfl
  · rw [if_neg h]
    cases hc : check_supplier_db w u with
    | OK row => exact Or.inl rfl
    | DB_ERROR => exact Or.inr (Or.inl rfl)
    | BLACKLISTED n => exact Or.inr (Or.inr (handle_bad_supplier_state w s _ n))
    | NOT_FOUND n => exact Or.inr (Or.inr (handle_bad_supplier_state w s _ n))

theorem confirmation_state_cases (w : World) (s : UserState) (u : String) :
    (handle_form_confirmation w s u).state = reset_form_state ∨
    (handle_form_confirmation w s u).state = s := by
  unfold handle_form_confirmation save_form
  by_cases h : (pyLower u == "save") = true
  · rw [if_pos h]
    by_cases hi : w.insert_ok = true
    · rw [if_pos hi]
      exact Or.inl rfl
    · rw [if_neg hi]
      exact Or.inr rfl
  · rw [if_neg h]
    exact Or.inl rfl

theorem inv_step (w : World) (m : String) (s : UserState)
    (hinv : s.special_state = some SUPPLIER_CHECK_STATE →
      s.current_field_index = 4) :
    (chat w (some s) m).state.special_state = some SUPPLIER_CHECK_STATE →
    (chat w (some s) m).state.current_field_index = 4 := by
  by_cases htrig : (["start", "restart", "edit"].contains (pyLower (pyStrip m))) = true
  · rw [chat_trigger htrig]
    intro h
    exact absurd h (by decide)
  · have htrig2 := Bool.eq_false_iff.mpr htrig
    by_cases hsp : s.special_state = some SUPPLIER_CHECK_STATE
    · have hidx := hinv hsp
      rw [chat_reselection htrig2 hsp]
      rcases reselection_state_cases w s (pyStrip m) with h | h | h
      · intro hh
        rw [h] at hh
        exact Option.noConfusion hh
      · rw [h]
        intro _
        exact hidx
      · rw [h]
        intro _
        exact hidx
    · by_cases hc : FORM_FIELDS.length ≤ s.current_field_index
      · rw [chat_confirmation htrig2 hsp hc]
        rcases confirmation_state_cases w s (pyStrip m) with h | h
        · rw [h]
          intro hh
          exact absurd hh (by decide)
        · rw [h]
          intro hh
          exact hinv hh
      · rw [chat_collecting htrig2 hsp (by omega)]
        unfold process_current_field
        cases hf : FORM_FIELDS.get? s.current_field_index with
        | none =>
            intro hh
            exact hinv hh
        | some f =>
            dsimp only
            by_cases hfs : (f == "Supplier Preference") = true
            · rw [if_pos hfs]
              have hf4 : s.current_field_index = 4 := by
                have hfe : f = "Supplier Preference" := by simpa using hfs
                exact supplier_field_index (hfe ▸ hf)
              rcases preference_state_cases w s (pyStrip m) with h | h | h
              · intro hh
                rw [h] at hh
                exact absurd hh hsp
              · rw [h]
                intro hh
                exact absurd hh hsp
              · rw [h]
                intro _
                exact hf4
            · rw [if_neg hfs]
              intro hh
              exact absurd hh hsp

/-- C9: in every reachable session state, the supplier-choice sub-state can
only hold while the cursor sits at index 4, the Supplier Preference field;
hence resolving the sub-state (here by `skip`) advances the cursor to
exactly 5, the field after Supplier Preference. -/
theorem special_state_cursor_inv (s : UserState) (w : World)
    (hs : Reachable s)
    (hsp : s.special_state = some SUPPLIER_CHECK_STATE) :
    s.current_field_index = 4 ∧
    (chat w (some s) "skip").state.current_field_index = 5 := by
  have hinv : ∀ t, Reachable t →
      t.special_state = some SUPPLIER_CHECK_STATE → t.current_field_index = 4 := by
    intro t ht
    induction ht with
    | init =>
        intro h
        exact absurd h (by decide)
    | step w2 m2 hr ih => exact inv_step w2 m2 _ ih
  have h4 := hinv s hs hsp
  refine ⟨h4, ?_⟩
  rw [chat_reselection (by decide) hsp]
  unfold handle_supplier_reselection
  rw [if_pos (by decide)]
  show s.current_field_index + 1 = 5
  rw [h4]

theorem chain_reachable : Reachable
    ((chat ⟨[⟨"Acme", "1 Road", "555", false⟩], true, true, true, ""⟩
      (some ((chat ⟨[⟨"Acme", "1 Road", "555", false⟩], true, true, true, ""⟩
        (some ((chat ⟨[⟨"Acme", "1 Road", "555", false⟩], true, true, true, ""⟩
          (some ((chat ⟨[⟨"Acme", "1 Road", "555", false⟩], true, true, true, ""⟩
            (some ((chat ⟨[⟨"Acme", "1 Road", "555", false⟩], true, true, true, ""⟩
              (some reset_form_state) "alice").state)) "pens").state))
          "because").state)) "tomorrow").state)) "Foo").state) :=
  Reachable.step _ "Foo" (Reachable.step _ "tomorrow" (Reachable.step _ "because"
    (Reachable.step _ "pens" (Reachable.step _ "alice" Reachable.init))))

/-- C9 witness: after answering the first four fields and then the unknown
supplier `Foo`, the reachable state carries the sub-state marker at cursor
4, and `skip` advances it to 5. -/
theorem special_state_cursor_inv_witness :
    ((chat ⟨[⟨"Acme", "1 Road", "555", false⟩], true, true, true, ""⟩
      (some ((chat ⟨[⟨"Acme", "1 Road", "555", false⟩], true, true, true, ""⟩
        (some ((chat ⟨[⟨"Acme", "1 Road", "555", false⟩], true, true, true, ""⟩
          (some ((chat ⟨[⟨"Acme", "1 Road", "555", false⟩], true, true, true, ""⟩
            (some ((chat ⟨[⟨"Acme", "1 Road", "555", false⟩], true, true, true, ""⟩
              (some reset_form_state) "alice").state)) "pens").state))
          "because").state)) "tomorrow").state)) "Foo").state).current_field_index
      = 4 ∧
    (chat ⟨[], true, true, true, ""⟩
      (some ((chat ⟨[⟨"Acme", "1 Road", "555", false⟩], true, true, true, ""⟩
        (some ((chat ⟨[⟨"Acme", "1 Road", "555", false⟩], true, true, true, ""⟩
          (some ((chat ⟨[⟨"Acme", "1 Road", "555", false⟩], true, true, true, ""⟩
            (some ((chat ⟨[⟨"Acme", "1 Road", "555", false⟩], true, true, true, ""⟩
              (some ((chat ⟨[⟨"Acme", "1 Road", "555", false⟩], true, true, true, ""⟩
                (some reset_form_state) "alice").state)) "pens").state))
            "because").state)) "tomorrow").state)) "Foo").state))
      "skip").state.current_field_index = 5 :=
  special_state_cursor_inv _ ⟨[], true, true, true, ""⟩ chain_reachable (by decide)

end ReqBot
